import Mathlib

/-!
Verification of the rustlechat server's real-time delivery and membership
subsystem.  The definitions below are a shallow embedding of the Rust source:
identifiers (UUIDs) are modelled as `Nat`, timestamps as `Nat` (instants) or
`Int` where comparisons with "now" matter, SQL tables as lists of row
structures, and tokio broadcast channels as the list of messages published on
them.  Database statements are embedded as pure functions over a `Db` state,
with primary-key and foreign-key behaviour taken from the schema created in
`src/database/migrations.rs`.  Fallible Rust paths become `Except`/`Option`.
-/

namespace RustleChat

/-- Decidable equality for `Except` results, so concrete runs can be checked
by `decide`. -/
instance {ε α : Type} [DecidableEq ε] [DecidableEq α] : DecidableEq (Except ε α) :=
  fun x y =>
    match x, y with
    | .ok a, .ok b =>
      if h : a = b then .isTrue (congrArg Except.ok h)
      else .isFalse (fun he => h (Except.ok.inj he))
    | .error a, .error b =>
      if h : a = b then .isTrue (congrArg Except.error h)
      else .isFalse (fun he => h (Except.error.inj he))
    | .ok _, .error _ => .isFalse (fun he => Except.noConfusion he)
    | .error _, .ok _ => .isFalse (fun he => Except.noConfusion he)

/-- Association-list lookup (models `HashMap::get` and keyed `SELECT`). -/
def alookup {κ α : Type} [DecidableEq κ] (k : κ) : List (κ × α) → Option α
  | [] => none
  | (k', v) :: rest => if k' = k then some v else alookup k rest

/-- Association-list insert-or-replace (models `HashMap::insert` / `entry`). -/
def ainsert {κ α : Type} [DecidableEq κ] (k : κ) (v : α) : List (κ × α) → List (κ × α)
  | [] => [(k, v)]
  | (k', v') :: rest => if k' = k then (k, v) :: rest else (k', v') :: ainsert k v rest

/-- Association-list removal (models `HashMap::remove`). -/
def aerase {κ α : Type} [DecidableEq κ] (k : κ) : List (κ × α) → List (κ × α)
  | [] => []
  | (k', v') :: rest => if k' = k then rest else (k', v') :: aerase k rest

/-- A row of `chat_members` (`migrations.rs` creates the table with only the
composite primary key; the drafts that reference `status` / `is_creator`
columns insert or read them optionally, so both are `Option`). -/
structure MembershipRow where
  chat_id : Nat
  user_id : Nat
  status : Option String
  is_creator : Option Bool
  deriving DecidableEq

/-- A row of `messages`, which coincides with `models::message::Message`. -/
structure Message where
  id : Nat
  chat_id : Nat
  sender_id : Nat
  message_text : String
  timestamp : Nat
  deriving DecidableEq

/-- A row of `sessions`. -/
structure SessionRow where
  user_id : Nat
  token : String
  expires_at : Int
  deriving DecidableEq

/-- A row of `invites`, which coincides with `models::invitation::ChatInvitation`. -/
structure InviteRow where
  id : Nat
  chat_id : Nat
  inviter_id : Nat
  invitee_id : Nat
  status : String
  created_at : Nat
  updated_at : Nat
  deriving DecidableEq

/-- The relational store (tables from `migrations.rs`); `users` and `chats`
are key/name pairs. -/
structure Db where
  users : List (Nat × String)
  chats : List (Nat × String)
  chat_members : List MembershipRow
  messages : List Message
  sessions : List SessionRow
  invites : List InviteRow
  deriving DecidableEq

/-- `websocket::types::UserStatus`. -/
inductive UserStatus
  | Online
  | Offline
  | Typing
  | Idle
  | Joined
  deriving DecidableEq

/-- `websocket::types::ChatMessage`. -/
structure ChatMessage where
  message_id : Nat
  chat_id : Nat
  sender_id : Nat
  content : String
  timestamp : Nat
  deriving DecidableEq

/-- `websocket::types::StatusMessage`. -/
structure StatusMessage where
  chat_id : Nat
  user_id : Nat
  status : UserStatus
  timestamp : Nat
  deriving DecidableEq

/-- `models::invitation::InvitationNotification`. -/
structure InvitationNotification where
  invitation_id : Nat
  chat_id : Nat
  inviter_username : String
  timestamp : Nat
  deriving DecidableEq

/-- `websocket::types::WebSocketMessage` (tagged union of stream frames). -/
inductive WebSocketMessage
  | Response (content : String)
  | Chat (msg : ChatMessage)
  | Status (msg : StatusMessage)
  | Error (code : String) (message : String)
  | Invitation (notif : InvitationNotification)
  deriving DecidableEq

/-- `connection_manager::UserConnection`; the per-user sender channel is
modelled as the list of messages published on it. -/
structure UserConnection where
  sender : List WebSocketMessage
  status : UserStatus
  last_activity : Nat
  deriving DecidableEq

/-- `connection_manager::ChatRoom`; `channel` is the room's broadcast
channel, modelled as the list of messages published on it. -/
structure ChatRoom where
  users : List (Nat × UserConnection)
  channel : List WebSocketMessage
  deriving DecidableEq

/-- `connection_manager::OnlineUser`; `sender` is the user's direct channel. -/
structure OnlineUser where
  id : Nat
  username : String
  sender : List WebSocketMessage
  deriving DecidableEq

/-- `connection_manager::ConnectionManager` (the db_pool field carries no
state relevant here and is omitted). -/
structure ConnectionManager where
  chats : List (Nat × ChatRoom)
  connections : List (Nat × OnlineUser)
  usernames : List (String × Nat)
  deriving DecidableEq

/-- `ConnectionManager::new`: all three maps start empty. -/
def ConnectionManager.new : ConnectionManager :=
  { chats := [], connections := [], usernames := [] }

/-- `ConnectionManager::add_user_to_chat`: create the room on first use,
insert the user if absent, and subscribe to the room channel.  The returned
`Nat` is the subscription cursor (a fresh receiver observes only messages
published after it subscribes). -/
def ConnectionManager.add_user_to_chat (cm : ConnectionManager)
    (chat_id user_id now : Nat) : ConnectionManager × Nat :=
  let room := match alookup chat_id cm.chats with
    | some r => r
    | none => { users := [], channel := [] }
  let room' := if (alookup user_id room.users).isSome then room
    else { room with
            users := room.users ++ [(user_id,
              { sender := [], status := UserStatus.Online, last_activity := now })] }
  ({ cm with chats := ainsert chat_id room' cm.chats }, room'.channel.length)

/-- `ConnectionManager::remove_user_from_chat`: drop the member; drop the
room when its member map becomes empty. -/
def ConnectionManager.remove_user_from_chat (cm : ConnectionManager)
    (chat_id user_id : Nat) : ConnectionManager :=
  match alookup chat_id cm.chats with
  | none => cm
  | some room =>
    let room' := { room with users := aerase user_id room.users }
    if room'.users.isEmpty then { cm with chats := aerase chat_id cm.chats }
    else { cm with chats := ainsert chat_id room' cm.chats }

/-- `ConnectionManager::broadcast_message`: publish on the room channel if
the room exists (the send result is discarded by the source). -/
def ConnectionManager.broadcast_message (cm : ConnectionManager)
    (message : WebSocketMessage) (chat_id _sender_id : Nat) : ConnectionManager :=
  match alookup chat_id cm.chats with
  | none => cm
  | some room =>
    { cm with chats :=
        ainsert chat_id ({ room with channel := room.channel ++ [message] }) cm.chats }

/-- `ConnectionManager::broadcast_to_chat` (async twin of `broadcast_message`,
same body). -/
def ConnectionManager.broadcast_to_chat (cm : ConnectionManager)
    (chat_id sender_id : Nat) (message : WebSocketMessage) : ConnectionManager :=
  cm.broadcast_message message chat_id sender_id

/-- `ConnectionManager::update_user_status`: mutate status and refresh
`last_activity` when the room and member exist. -/
def ConnectionManager.update_user_status (cm : ConnectionManager)
    (chat_id user_id : Nat) (status : UserStatus) (now : Nat) : ConnectionManager :=
  match alookup chat_id cm.chats with
  | none => cm
  | some room =>
    match alookup user_id room.users with
    | none => cm
    | some conn =>
      let conn' := { conn with status := status, last_activity := now }
      let room' := { room with users := ainsert user_id conn' room.users }
      { cm with chats := ainsert chat_id room' cm.chats }

/-- `ConnectionManager::send_direct_message`: publish on the user's direct
channel, or fail when the user has no `connections` entry. -/
def ConnectionManager.send_direct_message (cm : ConnectionManager)
    (user_id : Nat) (message : WebSocketMessage) : Except String ConnectionManager :=
  match alookup user_id cm.connections with
  | some user =>
    let user' := { user with sender := user.sender ++ [message] }
    .ok { cm with connections := ainsert user_id user' cm.connections }
  | none => .error "User not found"

/-- `ConnectionManager::get_online_user`: resolve username to id, then id to
the online user. -/
def ConnectionManager.get_online_user (cm : ConnectionManager)
    (username : String) : Option OnlineUser :=
  (alookup username cm.usernames).bind (fun user_id => alookup user_id cm.connections)

/-- `websocket::handlers::is_user_in_chat`. -/
def is_user_in_chat (cm : ConnectionManager) (chat_id user_id : Nat) : Bool :=
  match alookup chat_id cm.chats with
  | some chat => (alookup user_id chat.users).isSome
  | none => false

/-- Rust `str::strip_prefix` with the literal pattern used by
`auth_middleware` (removes one leading occurrence, or fails). -/
def stripBearerOnce : List Char → Option (List Char)
  | 'B' :: 'e' :: 'a' :: 'r' :: 'e' :: 'r' :: ' ' :: rest => some rest
  | _ => none

/-- Rust `str::trim_start_matches` with the same pattern (removes every
leading occurrence), as used by `ws_auth_middleware::extract_token`. -/
def stripBearerAll : List Char → List Char
  | 'B' :: 'e' :: 'a' :: 'r' :: 'e' :: 'r' :: ' ' :: rest => stripBearerAll rest
  | l => l

/-- Rust `str::trim` (whitespace characters as they occur in tokens). -/
def trimChars (l : List Char) : List Char :=
  ((l.dropWhile (fun c => c == ' ' || c == '\t' || c == '\n' || c == '\r')).reverse.dropWhile
    (fun c => c == ' ' || c == '\t' || c == '\n' || c == '\r')).reverse

/-- `middleware::auth_middleware::auth_middleware`, the REST Auth Gate.  The
JWT decoder (`jsonwebtoken::decode` of the `Claims.sub` user id, an external
collaborator) is passed in as `decode`; the `JWT_SECRET_KEY` environment
variable is assumed present (its absence is an orthogonal 500 path).  Note
that the function receives only the request headers: it has no database
access of any kind. -/
def auth_middleware (decode : String → Option Nat)
    (auth_header : Option String) : Except Nat Nat :=
  match auth_header with
  | some auth_str =>
    match stripBearerOnce auth_str.data with
    | some tchars =>
      match decode (String.mk (trimChars tchars)) with
      | some user_id => .ok user_id
      | none => .error 401
    | none => .error 401
  | none => .error 401

/-- `repositories::auth_repository::AuthRepository::verify_session_token`:
`SELECT user_id FROM sessions WHERE token = $1 AND expires_at > NOW()`. -/
def verify_session_token (db : Db) (now : Int) (token : String) : Option Nat :=
  (db.sessions.find? (fun s => s.token == token && decide (now < s.expires_at))).map
    (fun s => s.user_id)

/-- `middleware::ws_auth_middleware::AuthError`. -/
inductive AuthError
  | DatabaseError (msg : String)
  | AccessDenied (msg : String)
  | InvalidToken
  | SessionExpired
  deriving DecidableEq

/-- `middleware::ws_auth_middleware::verify_chat_access`:
`SELECT EXISTS(SELECT 1 FROM chat_members WHERE chat_id = $1 AND user_id = $2)`
— note that the query does not mention the `status` column.  (The source
interpolates the ids into the denial message; the model uses a fixed text.) -/
def verify_chat_access (db : Db) (user_id chat_id : Nat) : Except AuthError Unit :=
  let has_access :=
    db.chat_members.any (fun r => r.chat_id == chat_id && r.user_id == user_id)
  if has_access then .ok ()
  else .error (.AccessDenied "User does not have access to chat")

/-- `middleware::ws_auth_middleware::extract_token`: a `token=` query
parameter wins; otherwise the Authorization header is used with every
leading `Bearer ` stripped; with neither, the request is refused. -/
def extract_token (params_token : Option String)
    (auth_header : Option String) : Except String String :=
  match params_token, auth_header with
  | some token, _ => .ok token
  | none, some auth_header_val => .ok (String.mk (stripBearerAll auth_header_val.data))
  | none, none => .error "No authentication token provided"

/-- `middleware::ws_auth_middleware::ws_auth_middleware`: token extraction
(401 on failure), session verification (401), then `verify_chat_access`
(403); on success the resolved user id is attached to the request. -/
def ws_auth_middleware (db : Db) (now : Int) (params_token : Option String)
    (params_chat_id : Nat) (auth_header : Option String) : Except (Nat × String) Nat :=
  match extract_token params_token auth_header with
  | .error e => .error (401, e)
  | .ok token =>
    match verify_session_token db now token with
    | none => .error (401, "Session not found")
    | some user_id =>
      match verify_chat_access db user_id params_chat_id with
      | .error _ => .error (403, "Access to chat denied")
      | .ok _ => .ok user_id

/-- Outcome of `GET /ws`: either the protocol switch (upgrade) bound to a
user id, or an HTTP status response. -/
inductive WsOutcome
  | switch (user_id : Nat)
  | status (code : Nat)
  deriving DecidableEq

/-- `websocket::handlers::websocket_handler`: reads the `Authorization`
header itself and applies `jwt_service::validate_token` (the `decode`
collaborator) to the raw header value; only then upgrades.  Requests
without the header are refused 401 regardless of any query token. -/
def websocket_handler (decode : String → Option Nat)
    (auth_header : Option String) : WsOutcome :=
  match auth_header with
  | some authorization =>
    match decode authorization with
    | some user_id => .switch user_id
    | none => .status 401
  | none => .status 401

/-- The `/ws` route as wired in `routes::app_routes`: `ws_auth_middleware`
layered in front of `websocket_handler`. -/
def ws_route (decode : String → Option Nat) (db : Db) (now : Int)
    (params_token : Option String) (params_chat_id : Nat)
    (auth_header : Option String) : WsOutcome :=
  match ws_auth_middleware db now params_token params_chat_id auth_header with
  | .error (code, _) => .status code
  | .ok _ => websocket_handler decode auth_header

/-- `websocket::handlers::can_user_send_message`: `SELECT 1 FROM chat_members
WHERE chat_id = $1 AND user_id = $2 AND (status = 'accepted' OR is_creator =
true)`; on a hit, adds the user to the in-memory chat when absent; on a miss,
errors. -/
def can_user_send_message (db : Db) (cm : ConnectionManager)
    (chat_id user_id now : Nat) : Except String (Bool × ConnectionManager) :=
  match db.chat_members.find? (fun r =>
      r.chat_id == chat_id && r.user_id == user_id &&
      (r.status == some "accepted" || r.is_creator == some true)) with
  | some _ =>
    if is_user_in_chat cm chat_id user_id then .ok (true, cm)
    else .ok (true, (cm.add_user_to_chat chat_id user_id now).1)
  | none => .error "User is not authorized in this chat"

/-- The prelude of `websocket::handlers::handle_websocket_connection`
(everything before the select loop): authorization check, in-memory join
with subscription, Online status broadcast.  Returns the registry state and
`some` subscription cursor when the session proceeds, `none` when the
connection is closed without joining. -/
def ws_connect_prelude (db : Db) (cm : ConnectionManager)
    (chat_id user_id now : Nat) : ConnectionManager × Option Nat :=
  match can_user_send_message db cm chat_id user_id now with
  | .error _ => (cm, none)
  | .ok (_, cm1) =>
    let (cm2, sub) := cm1.add_user_to_chat chat_id user_id now
    let status_msg := WebSocketMessage.Status
      { chat_id := chat_id, user_id := user_id,
        status := UserStatus.Online, timestamp := now }
    (cm2.broadcast_message status_msg chat_id user_id, some sub)

/-- One iteration of the inbound (client-to-server) branch of the select
loop in `handle_websocket_connection`, for a text frame: wrap the text into
a fresh `ChatMessage` and `broadcast_message` it.  The relational store is
threaded through to show what happens to it. -/
def ws_inbound_text (db : Db) (cm : ConnectionManager) (chat_id user_id : Nat)
    (text : String) (message_id now : Nat) : Db × ConnectionManager × ChatMessage :=
  let chat_msg : ChatMessage :=
    { message_id := message_id, chat_id := chat_id, sender_id := user_id,
      content := text, timestamp := now }
  (db, cm.broadcast_message (.Chat chat_msg) chat_id user_id, chat_msg)

/-- One iteration of the outbound (server-to-client) branch of the select
loop in `handle_websocket_connection`: the frame written to the socket for a
message received on the subscription (`some content` = a text frame is
written, `none` = nothing is written). -/
def ws_outbound_step (msg : WebSocketMessage) : Option String :=
  match msg with
  | .Chat chat_msg => some chat_msg.content
  | _ => none

/-- `INSERT INTO chat_members (...) VALUES (...)` with the supplied column
values.  Per `migrations.rs` the table has `PRIMARY KEY (chat_id, user_id)`
and foreign keys into `chats` and `users`, so the statement fails when the
pair already has a row or a referenced row is missing. -/
def insert_chat_member (db : Db) (chat_id user_id : Nat)
    (status : Option String) (is_creator : Option Bool) : Except String Db :=
  if (alookup chat_id db.chats).isSome && (alookup user_id db.users).isSome &&
      db.chat_members.all (fun r => !(r.chat_id == chat_id && r.user_id == user_id))
  then .ok { db with chat_members := db.chat_members ++
      [{ chat_id := chat_id, user_id := user_id,
         status := status, is_creator := is_creator }] }
  else .error "insert into chat_members failed"

/-- `services::chat_service::send_message`: a single
`INSERT INTO messages ... RETURNING id, chat_id, sender_id, message_text,
timestamp` with a fresh `message_id`; the server-assigned timestamp and the
generated id are passed as parameters.  There is no membership check of any
kind before the insert.  Per `migrations.rs`, `messages` has a primary key
on `id` and foreign keys into `chats` and `users`. -/
def send_message (db : Db) (chat_id sender_id : Nat) (message : String)
    (message_id ts : Nat) : Except String (Db × Message) :=
  if (alookup chat_id db.chats).isSome && (alookup sender_id db.users).isSome &&
      db.messages.all (fun m => !(m.id == message_id))
  then
    let row : Message :=
      { id := message_id, chat_id := chat_id, sender_id := sender_id,
        message_text := message, timestamp := ts }
    .ok ({ db with messages := db.messages ++ [row] }, row)
  else .error "Erro ao enviar mensagem"

/-- `handlers::chat_handlers::send_message_handler`: delegates to
`send_message` with the authenticated user as sender; an `Ok` row becomes
the 200 JSON body, any error becomes a 403 response. -/
def send_message_handler (db : Db) (current_user_id : Nat) (req_chat_id : Nat)
    (req_message : String) (message_id ts : Nat) :
    Except (Nat × String) Message × Db :=
  match send_message db req_chat_id current_user_id req_message message_id ts with
  | .ok (db', m) => (.ok m, db')
  | .error e => (.error (403, e), db)

/-- `services::invitation_service::update_invitation_status`: check the
`(invite_id, invitee_id)` row exists, then `UPDATE invites SET status,
updated_at WHERE id = $3 AND invitee_id = $4 RETURNING *`.  (The source
interpolates ids into its error strings; the model uses fixed texts.) -/
def update_invitation_status (db : Db) (invitation_id user_id : Nat)
    (accepted : Bool) (now : Nat) : Except String (Db × InviteRow) :=
  let status := if accepted then "accepted" else "rejected"
  let rowMatch := fun (i : InviteRow) => i.id == invitation_id && i.invitee_id == user_id
  match db.invites.find? rowMatch with
  | none => .error "No invitation found for this id and user"
  | some _ =>
    let invites' := db.invites.map (fun i =>
      if rowMatch i then { i with status := status, updated_at := now } else i)
    match invites'.find? rowMatch with
    | some row => .ok ({ db with invites := invites' }, row)
    | none => .error "No invitation was updated"

/-- `handlers::invitation_handlers::respond_to_invitation`: updates the
invite status, and when `accept` additionally runs a separate
`INSERT INTO chat_members (chat_id, user_id, status, is_creator)
VALUES ($1, $2, 'accepted', false)` on a freshly acquired client (no
transaction spans the two statements), then opportunistically seeds the
in-memory room and broadcasts a Joined status. -/
def respond_to_invitation (db : Db) (cm : ConnectionManager)
    (user_id invitation_id : Nat) (accept : Bool) (now : Nat) :
    Except (Nat × String) InviteRow × Db × ConnectionManager :=
  match update_invitation_status db invitation_id user_id accept now with
  | .error e => (.error (400, e), db, cm)
  | .ok (db1, invitation) =>
    if accept then
      match insert_chat_member db1 invitation.chat_id user_id
          (some "accepted") (some false) with
      | .error e => (.error (500, e), db1, cm)
      | .ok db2 =>
        let (cm1, _) := cm.add_user_to_chat invitation.chat_id user_id now
        let joined := WebSocketMessage.Status
          { chat_id := invitation.chat_id, user_id := user_id,
            status := UserStatus.Joined, timestamp := now }
        (.ok invitation, db2, cm1.broadcast_to_chat invitation.chat_id user_id joined)
    else (.ok invitation, db1, cm)

/-- `models::chat::Chat`. -/
structure Chat where
  id : Nat
  name : String
  deriving DecidableEq

/-- `INSERT INTO chats (id, name) VALUES ($1, $2) RETURNING id, name`.
Per `migrations.rs`, `id` is the primary key and `name` a `VARCHAR(255)`
column, so the insert fails on a duplicate id or a name longer than 255. -/
def insert_chat (db : Db) (chat_id : Nat) (name : String) :
    Except String (Db × Nat × String) :=
  if name.length ≤ 255 && (alookup chat_id db.chats).isNone
  then .ok ({ db with chats := db.chats ++ [(chat_id, name)] }, chat_id, name)
  else .error "Erro ao criar chat"

/-- The invitee loop of `services::chat_service::create_chat`: resolve each
username (`SELECT id FROM users WHERE username = $1`, error when absent)
and insert the invitee directly as a `chat_members` row with only
`(chat_id, user_id)` specified. -/
def add_invitees (db : Db) (chat_id : Nat) : List String → Except String Db
  | [] => .ok db
  | username :: rest =>
    match db.users.find? (fun u => u.2 == username) with
    | none => .error "Usuario convidado nao encontrado"
    | some u =>
      match insert_chat_member db chat_id u.1 none none with
      | .error e => .error e
      | .ok db' => add_invitees db' chat_id rest

/-- `services::chat_service::create_chat`: default the name to
`"Default Chat"` when omitted (no validation of a provided name), insert the
chat row, insert the creator as a bare `(chat_id, user_id)` member row, then
process the invitees; the returned `Chat` carries the row returned by the
chats insert. -/
def create_chat (db : Db) (user_id : Nat) (name : Option String)
    (invitees : Option (List String)) (chat_id : Nat) :
    Except String (Db × Chat) :=
  let chat_name := name.getD "Default Chat"
  match insert_chat db chat_id chat_name with
  | .error e => .error e
  | .ok (db1, rid, rname) =>
    match insert_chat_member db1 chat_id user_id none none with
    | .error e => .error e
    | .ok db2 =>
      match invitees with
      | some l =>
        match add_invitees db2 chat_id l with
        | .error e => .error e
        | .ok db3 => .ok (db3, { id := rid, name := rname })
      | none => .ok (db2, { id := rid, name := rname })

/-- A typed SQL column value, to model `tokio_postgres::Row::get` (which
panics on an out-of-range index or a type mismatch — both modelled as
`none`). -/
inductive SqlValue
  | uuidv (n : Nat)
  | textv (s : String)
  | tsv (n : Nat)
  deriving DecidableEq

/-- `row.get::<Uuid>(i)`. -/
def getUuid (row : List SqlValue) (i : Nat) : Option Nat :=
  match row.get? i with
  | some (.uuidv n) => some n
  | _ => none

/-- `row.get::<String>(i)` on a text column. -/
def getText (row : List SqlValue) (i : Nat) : Option String :=
  match row.get? i with
  | some (.textv s) => some s
  | _ => none

/-- `row.get(i)` on a timestamp column. -/
def getTs (row : List SqlValue) (i : Nat) : Option Nat :=
  match row.get? i with
  | some (.tsv n) => some n
  | _ => none

/-- The column list produced per row by the query of
`services::chat_service::get_chat_messages`:
`SELECT m.id, m.sender_id, m.message_text, m.timestamp` — four columns,
`m.chat_id` is not selected. -/
def message_select_row (m : Message) : List SqlValue :=
  [.uuidv m.id, .uuidv m.sender_id, .textv m.message_text, .tsv m.timestamp]

/-- Insertion into a timestamp-sorted list (helper for `ORDER BY`). -/
def insertByTs (m : Message) : List Message → List Message
  | [] => [m]
  | x :: xs => if m.timestamp < x.timestamp then m :: x :: xs else x :: insertByTs m xs

/-- `ORDER BY m.timestamp` (ascending, stable). -/
def orderByTimestamp : List Message → List Message
  | [] => []
  | x :: xs => insertByTs x (orderByTimestamp xs)

/-- `services::chat_service::get_chat_messages`: run the four-column query
and build each `Message` from `row.get(0)` through `row.get(4)` — i.e.
`chat_id` from column 1, `sender_id` from column 2, `message_text` from
column 3 and `timestamp` from column 4, exactly as the source maps them.
`none` models the `row.get` panic. -/
def get_chat_messages (db : Db) (chat_id : Nat) : Option (List Message) :=
  let rows := (orderByTimestamp (db.messages.filter
    (fun m => m.chat_id == chat_id))).map message_select_row
  rows.mapM (fun row => do
    let id ← getUuid row 0
    let cid ← getUuid row 1
    let sid ← getUuid row 2
    let txt ← getText row 3
    let ts ← getTs row 4
    pure ({ id := id, chat_id := cid, sender_id := sid,
            message_text := txt, timestamp := ts } : Message))

/-- A call to one of the `ConnectionManager`'s mutating public operations. -/
inductive RegistryOp
  | add_user_to_chat (chat_id user_id now : Nat)
  | remove_user_from_chat (chat_id user_id : Nat)
  | broadcast_message (message : WebSocketMessage) (chat_id sender_id : Nat)
  | broadcast_to_chat (chat_id sender_id : Nat) (message : WebSocketMessage)
  | update_user_status (chat_id user_id : Nat) (status : UserStatus) (now : Nat)
  | send_direct_message (user_id : Nat) (message : WebSocketMessage)

/-- Apply one public operation to the registry (for a failing
`send_direct_message` the registry is left unchanged). -/
def applyOp (cm : ConnectionManager) : RegistryOp → ConnectionManager
  | .add_user_to_chat chat_id user_id now => (cm.add_user_to_chat chat_id user_id now).1
  | .remove_user_from_chat chat_id user_id => cm.remove_user_from_chat chat_id user_id
  | .broadcast_message message chat_id sender_id =>
      cm.broadcast_message message chat_id sender_id
  | .broadcast_to_chat chat_id sender_id message =>
      cm.broadcast_to_chat chat_id sender_id message
  | .update_user_status chat_id user_id status now =>
      cm.update_user_status chat_id user_id status now
  | .send_direct_message user_id message =>
      match cm.send_direct_message user_id message with
      | .ok cm' => cm'
      | .error _ => cm

/-- The registry state reached from `ConnectionManager::new` by a sequence
of public operations. -/
def runOps (ops : List RegistryOp) : ConnectionManager :=
  ops.foldl applyOp ConnectionManager.new

/-- The notification tail of
`handlers::invitation_handlers::send_invitation_helper`: only when
`get_online_user` finds the invitee is a direct message attempted.  The
boolean reports whether a notification was delivered to a direct channel. -/
def invitation_push (cm : ConnectionManager) (invitee_username : String)
    (notif : WebSocketMessage) : ConnectionManager × Bool :=
  match cm.get_online_user invitee_username with
  | some user =>
    match cm.send_direct_message user.id notif with
    | .ok cm' => (cm', true)
    | .error _ => (cm, false)
  | none => (cm, false)

/-- Fixture: one chat with an accepted creator, empty message table. -/
def c1db : Db :=
  { users := [(2, "alice")], chats := [(1, "room")],
    chat_members := [⟨1, 2, some "accepted", some true⟩],
    messages := [], sessions := [], invites := [] }

/-- Fixture: user 2's only membership row in chat 1 is pending. -/
def c2db : Db :=
  { users := [(2, "bob")], chats := [(1, "room")],
    chat_members := [⟨1, 2, some "pending", some false⟩],
    messages := [], sessions := [⟨2, "tok2", 1000⟩], invites := [] }

/-- Fixture: chat 1 with creator 2; user 3 exists but has no membership row. -/
def c3db : Db :=
  { users := [(2, "alice"), (3, "carol")], chats := [(1, "room")],
    chat_members := [⟨1, 2, some "accepted", some true⟩],
    messages := [], sessions := [], invites := [] }

/-- Fixture: the only session row for token "tok" expires at instant 99. -/
def c4db : Db :=
  { users := [(7, "alice")], chats := [], chat_members := [],
    messages := [], sessions := [⟨7, "tok", 99⟩], invites := [] }

/-- A concrete JWT decoder mapping token "tok" to user 7. -/
def c4decode : String → Option Nat := fun t => if t = "tok" then some 7 else none

/-- Fixture: user 2 already has a (statusless) membership row in chat 1 and a
pending invite 5 to the same chat. -/
def c5db : Db :=
  { users := [(2, "bob"), (9, "alice")], chats := [(1, "room")],
    chat_members := [⟨1, 2, none, none⟩],
    messages := [], sessions := [],
    invites := [⟨5, 1, 9, 2, "pending", 0, 0⟩] }

/-- Fixture: like `c5db` but user 2 is not yet a member, so acceptance can
succeed. -/
def c5wdb : Db :=
  { users := [(2, "bob"), (9, "alice")], chats := [(1, "room")],
    chat_members := [], messages := [], sessions := [],
    invites := [⟨5, 1, 9, 2, "pending", 0, 0⟩] }

/-- Fixture: user 7 with a live session "tok7" and accepted membership in
chat 1. -/
def c7db : Db :=
  { users := [(7, "carol")], chats := [(1, "room")],
    chat_members := [⟨1, 7, some "accepted", some false⟩],
    messages := [], sessions := [⟨7, "tok7", 1000⟩], invites := [] }

/-- A concrete JWT decoder mapping token "tok7" to user 7. -/
def c7decode : String → Option Nat := fun t => if t = "tok7" then some 7 else none

/-- A 51-character chat name. -/
def name51 : String := String.mk (List.replicate 51 'a')

/-- Fixture: a lone registered user, no chats. -/
def c8db : Db :=
  { users := [(2, "alice")], chats := [], chat_members := [],
    messages := [], sessions := [], invites := [] }

/-- Fixture: chat 1 holds exactly one stored message. -/
def c9db : Db :=
  { users := [(2, "alice")], chats := [(1, "room")],
    chat_members := [⟨1, 2, some "accepted", some true⟩],
    messages := [⟨10, 1, 2, "hi", 5⟩], sessions := [], invites := [] }

/-- C1: the inbound loop of the Stream Session never persists the incoming
text frame — the relational store is untouched by `ws_inbound_text` — yet
the fresh `ChatMessage` is published on the room's broadcast channel, so at
the moment of delivery a SELECT in the Message table does not return the
row (here: message id 99 is delivered on chat 1's channel while the
messages table has no row with id 99). -/
theorem c1_inbound_no_persist :
    (∀ (db : Db) (cm : ConnectionManager) (chat_id user_id : Nat)
      (text : String) (message_id now : Nat),
      (ws_inbound_text db cm chat_id user_id text message_id now).1 = db) ∧
    ((alookup 1 (ws_inbound_text c1db
        ((ConnectionManager.new.add_user_to_chat 1 2 0).1)
        1 2 "hello" 99 5).2.1.chats).map ChatRoom.channel =
      some [WebSocketMessage.Chat ⟨99, 1, 2, "hello", 5⟩]) ∧
    ((ws_inbound_text c1db ((ConnectionManager.new.add_user_to_chat 1 2 0).1)
        1 2 "hello" 99 5).1.messages.all (fun m => !(m.id == 99)) = true) := by
  refine ⟨fun db cm c u t mid now => rfl, by decide, by decide⟩

/-- C2 counterexample: user 2's only membership row in chat 1 has status
"pending", yet the stream-upgrade authorization does not return Forbidden:
`verify_chat_access` grants access and the websocket auth middleware
resolves the user successfully. -/
theorem c2_counterexample :
    verify_chat_access c2db 2 1 = .ok () ∧
    ws_auth_middleware c2db 0 (some "tok2") 1 none = .ok 2 := by decide

/-- C3 (code bug): user 3 has no chat_members row at all, yet
POST /send_message with sender 3 returns the 200 row and inserts it into the
messages table — no Forbidden, no membership check. -/
theorem c3_nonmember_post :
    (c3db.chat_members.all (fun r => !(r.user_id == 3)) = true) ∧
    (send_message_handler c3db 3 1 "hi" 10 5).1 = .ok ⟨10, 1, 3, "hi", 5⟩ ∧
    (send_message_handler c3db 3 1 "hi" 10 5).2.messages = [⟨10, 1, 3, "hi", 5⟩] := by
  decide

/-- C4 counterexample: at `now = 100` the only session row for "tok" has
`expires_at = 99 ≤ now` (so `verify_session_token` finds nothing), yet the
REST auth middleware accepts `Authorization: Bearer tok` because it only
decodes the JWT and never consults the sessions table. -/
theorem c4_counterexample :
    auth_middleware c4decode (some "Bearer tok") = .ok 7 ∧
    verify_session_token c4db 100 "tok" = none := by decide

/-- C5 counterexample: accepting invite 5 first flips the invite row to
"accepted", then the separate `chat_members` INSERT fails (the (1,2) primary
key already exists); the handler reports a 500 error while the database is
left with the invite accepted and no accepted membership row — an
intermediate state the claimed single transaction would make unobservable. -/
theorem c5_counterexample :
    (respond_to_invitation c5db ConnectionManager.new 2 5 true 7).1 =
      .error (500, "insert into chat_members failed") ∧
    (respond_to_invitation c5db ConnectionManager.new 2 5 true 7).2.1.invites =
      [⟨5, 1, 9, 2, "accepted", 0, 7⟩] ∧
    ((respond_to_invitation c5db ConnectionManager.new 2 5 true 7).2.1.chat_members.all
      (fun r => !(r.status == some "accepted")) = true) := by decide

/-- C6 counterexample: a Status message received on the subscription is
silently dropped by the outbound loop — nothing is written to the socket. -/
theorem c6_counterexample :
    ws_outbound_step (.Status ⟨1, 2, UserStatus.Joined, 0⟩) = none := rfl

/-- C6 (amended): the outbound loop forwards only Chat messages, writing a
text frame carrying the message content; a Status, Invitation, Error or
Response message received on the subscription is dropped without any write
to the client. -/
theorem c6_amended :
    (∀ c : ChatMessage, ws_outbound_step (.Chat c) = some c.content) ∧
    (∀ s : StatusMessage, ws_outbound_step (.Status s) = none) ∧
    (∀ n : InvitationNotification, ws_outbound_step (.Invitation n) = none) ∧
    (∀ code message : String, ws_outbound_step (.Error code message) = none) ∧
    (∀ content : String, ws_outbound_step (.Response content) = none) :=
  ⟨fun _ => rfl, fun _ => rfl, fun _ => rfl, fun _ _ => rfl, fun _ => rfl⟩

/-- C7 counterexample: with a fully valid `token=` query parameter (live
session, accepted membership) and no Authorization header, the middleware
resolves user 7 but the route still answers 401 — no protocol switch. -/
theorem c7_counterexample :
    ws_auth_middleware c7db 0 (some "tok7") 1 none = .ok 7 ∧
    ws_route c7decode c7db 0 (some "tok7") 1 none = .status 401 := by decide

/-- C8 counterexample: a 51-character name is outside the claimed 1..=50
bound, yet `create_chat` succeeds — the Chat row is created with that name
and no ValidationError occurs. -/
theorem c8_counterexample :
    50 < name51.length ∧
    create_chat c8db 2 (some name51) none 1 =
      .ok (⟨[(2, "alice")], [(1, name51)], [⟨1, 2, none, none⟩], [], [], []⟩,
           ⟨1, name51⟩) := by decide

/-- C9 (code bug): chat 1 has exactly one stored message, but
`get_chat_messages` cannot return it: the query selects only four columns
(id, sender_id, message_text, timestamp) while the row mapping reads five —
column 1 holds the sender id (which the mapping would store as `chat_id`),
column 2 is text where a Uuid is read, and there is no column 4 — so the
mapping panics (modelled as `none`) instead of returning the stored rows. -/
theorem c9_column_misalignment :
    c9db.messages.filter (fun m => m.chat_id == 1) = [⟨10, 1, 2, "hi", 5⟩] ∧
    get_chat_messages c9db 1 = none ∧
    getUuid (message_select_row ⟨10, 1, 2, "hi", 5⟩) 1 = some 2 ∧
    getUuid (message_select_row ⟨10, 1, 2, "hi", 5⟩) 2 = none ∧
    (message_select_row ⟨10, 1, 2, "hi", 5⟩).get? 4 = none := by decide

/-- C2 (amended): the upgrade gate is split in two.  A user with no
`chat_members` row for the room at all is refused by `verify_chat_access`
with AccessDenied (mapped to 403); a user whose rows are all non-accepted
and non-creator (e.g. only pending or rejected) passes that middleware check
but is refused by the in-connection `can_user_send_message` check, and in
both situations the connection handler closes without any `join_room`
side-effect on the in-memory room map. -/
theorem c2_amended (db : Db) (cm : ConnectionManager) (chat_id user_id now : Nat)
    (h : ∀ r ∈ db.chat_members, r.chat_id = chat_id → r.user_id = user_id →
      r.status ≠ some "accepted" ∧ r.is_creator ≠ some true) :
    can_user_send_message db cm chat_id user_id now =
      .error "User is not authorized in this chat" ∧
    ws_connect_prelude db cm chat_id user_id now = (cm, none) ∧
    ((∀ r ∈ db.chat_members, ¬(r.chat_id = chat_id ∧ r.user_id = user_id)) →
      verify_chat_access db user_id chat_id =
        .error (.AccessDenied "User does not have access to chat")) := by
  have hfind : db.chat_members.find? (fun r =>
      r.chat_id == chat_id && r.user_id == user_id &&
      (r.status == some "accepted" || r.is_creator == some true)) = none := by
    rw [List.find?_eq_none]
    intro r hr
    simp only [Bool.and_eq_true, Bool.or_eq_true, beq_iff_eq, not_and]
    rintro ⟨hc, hu⟩ hacc
    rcases h r hr hc hu with ⟨hs, hic⟩
    rcases hacc with hacc | hacc
    · exact hs hacc
    · exact hic hacc
  refine ⟨?_, ?_, ?_⟩
  · simp [can_user_send_message, hfind]
  · simp [ws_connect_prelude, can_user_send_message, hfind]
  · intro hnone
    have hany : db.chat_members.any
        (fun r => r.chat_id == chat_id && r.user_id == user_id) = false := by
      cases hb : db.chat_members.any
          (fun r => r.chat_id == chat_id && r.user_id == user_id) with
      | false => rfl
      | true =>
        rcases List.any_eq_true.mp hb with ⟨r, hr, hp⟩
        simp only [Bool.and_eq_true, beq_iff_eq] at hp
        exact absurd hp (hnone r hr)
    simp [verify_chat_access, hany]

/-- C2 amended witness: in a store with no membership rows at all, user 3 is
refused by both gates for chat 1, the handler performs no in-memory join,
and `verify_chat_access` answers AccessDenied. -/
theorem c2_amended_witness :
    can_user_send_message c8db ConnectionManager.new 1 3 0 =
      .error "User is not authorized in this chat" ∧
    ws_connect_prelude c8db ConnectionManager.new 1 3 0 = (ConnectionManager.new, none) ∧
    verify_chat_access c8db 3 1 =
      .error (.AccessDenied "User does not have access to chat") :=
  ⟨(c2_amended c8db ConnectionManager.new 1 3 0 (by decide)).1,
   (c2_amended c8db ConnectionManager.new 1 3 0 (by decide)).2.1,
   (c2_amended c8db ConnectionManager.new 1 3 0 (by decide)).2.2 (by decide)⟩

/-- C4 (amended): the REST auth gate authorizes purely by JWT decode — any
`Authorization: Bearer t` header whose token decodes is accepted, without
any access to the sessions table — whereas session expiry is enforced only
on the stream-upgrade path by `verify_session_token`, which does return
nothing when every session row for the token has `expires_at ≤ now`. -/
theorem c4_amended (decode : String → Option Nat) (tchars : List Char) (u : Nat)
    (hdec : decode (String.mk (trimChars tchars)) = some u)
    (db : Db) (now : Int) (token : String)
    (hexp : ∀ s ∈ db.sessions, s.token = token → s.expires_at ≤ now) :
    auth_middleware decode
      (some (String.mk ('B' :: 'e' :: 'a' :: 'r' :: 'e' :: 'r' :: ' ' :: tchars))) =
      .ok u ∧
    verify_session_token db now token = none := by
  constructor
  · simp [auth_middleware, stripBearerOnce, hdec]
  · have hfind : db.sessions.find?
        (fun s => s.token == token && decide (now < s.expires_at)) = none := by
      rw [List.find?_eq_none]
      intro s hs
      simp only [Bool.and_eq_true, beq_iff_eq, decide_eq_true_eq, not_and]
      intro h1 h2
      exact absurd (hexp s hs h1) (not_le.mpr h2)
    simp [verify_session_token, hfind]

/-- A concrete JWT decoder mapping token "xyz" to user 3. -/
def c4wdecode : String → Option Nat := fun t => if t = "xyz" then some 3 else none

/-- C4 amended witness at a concrete decoder, header and expired-session
store. -/
theorem c4_amended_witness :
    auth_middleware c4wdecode
      (some (String.mk ('B' :: 'e' :: 'a' :: 'r' :: 'e' :: 'r' :: ' ' ::
        ['x', 'y', 'z']))) = .ok 3 ∧
    verify_session_token c4db 100 "tok" = none :=
  c4_amended c4wdecode ['x', 'y', 'z'] 3 (by decide) c4db 100 "tok" (by decide)

/-- Helper: a successful `chat_members` insert appends exactly the given row. -/
theorem insert_chat_member_ok (db : Db) (c u : Nat) (st : Option String)
    (ic : Option Bool) (db' : Db) (h : insert_chat_member db c u st ic = .ok db') :
    db' = { db with chat_members := db.chat_members ++ [⟨c, u, st, ic⟩] } := by
  unfold insert_chat_member at h
  split at h
  · exact (Except.ok.inj h).symm
  · exact absurd h (by simp)

/-- Helper: a successful accept-update returns a row with status "accepted"
that is present in the updated invites table, and leaves every other table
unchanged. -/
theorem update_invitation_status_accept_ok (db : Db) (invitation_id user_id now : Nat)
    (db1 : Db) (row : InviteRow)
    (h : update_invitation_status db invitation_id user_id true now = .ok (db1, row)) :
    row.status = "accepted" ∧ row ∈ db1.invites ∧
    db1.users = db.users ∧ db1.chats = db.chats ∧ db1.chat_members = db.chat_members := by
  simp only [update_invitation_status, if_true] at h
  split at h
  · exact absurd h (by simp)
  · split at h
    · next row0 hfind =>
      have hinj := Except.ok.inj h
      have hdb : db1 = { db with invites := db.invites.map (fun i =>
          if i.id == invitation_id && i.invitee_id == user_id
          then { i with status := "accepted", updated_at := now } else i) } :=
        (congrArg Prod.fst hinj).symm
      have hrow : row = row0 := (congrArg Prod.snd hinj).symm
      subst hrow
      have hmem := List.mem_of_find?_eq_some hfind
      have hp := List.find?_some hfind
      simp only [Bool.and_eq_true, beq_iff_eq] at hp
      have hstat : row.status = "accepted" := by
        rcases List.mem_map.mp hmem with ⟨i, _, hfi⟩
        by_cases hc : (i.id == invitation_id && i.invitee_id == user_id) = true
        · rw [if_pos hc] at hfi
          rw [← hfi]
        · rw [if_neg hc] at hfi
          subst hfi
          simp only [Bool.and_eq_true, beq_iff_eq] at hc
          exact absurd hp hc
      refine ⟨hstat, ?_, by rw [hdb], by rw [hdb], by rw [hdb]⟩
      rw [hdb]
      exact hmem
    · exact absurd h (by simp)

/-- C5 (amended): when `respond_to_invitation(..., accept=true)` returns
success, the invite row has status "accepted" and an
`(chat_id, user_id, status=accepted, is_creator=false)` membership row
exists; however the two writes are separate single statements on separately
acquired clients — no transaction spans them (the membership write is a
plain INSERT, not an upsert), and when the insert fails the invite is left
accepted with no accepted membership row. -/
theorem c5_amended (db : Db) (cm : ConnectionManager) (user_id invitation_id now : Nat)
    (invitation : InviteRow) (db' : Db) (cm' : ConnectionManager)
    (heq : respond_to_invitation db cm user_id invitation_id true now =
      (.ok invitation, db', cm')) :
    invitation.status = "accepted" ∧ invitation ∈ db'.invites ∧
    (⟨invitation.chat_id, user_id, some "accepted", some false⟩ : MembershipRow) ∈
      db'.chat_members := by
  unfold respond_to_invitation at heq
  split at heq
  · simp at heq
  · next db1 invitation1 hupd =>
    rw [if_pos rfl] at heq
    split at heq
    · simp at heq
    · next db2 hins =>
      have h1 : Except.ok invitation1 = Except.ok (ε := Nat × String) invitation :=
        congrArg Prod.fst heq
      have hinv : invitation1 = invitation := Except.ok.inj h1
      have hdb : db2 = db' := congrArg (fun p => p.2.1) heq
      obtain ⟨hstat, hmem, -, -, hcm⟩ :=
        update_invitation_status_accept_ok db invitation_id user_id now db1 invitation1 hupd
      have hins' := insert_chat_member_ok db1 invitation1.chat_id user_id
        (some "accepted") (some false) db2 hins
      rw [← hinv]
      refine ⟨hstat, ?_, ?_⟩
      · rw [← hdb, hins']
        exact hmem
      · rw [← hdb, hins']
        exact List.mem_append_right _ (by simp)

/-- The database state after a successful acceptance of invite 5 from
`c5wdb`. -/
def c5wdb2 : Db :=
  ⟨[(2, "bob"), (9, "alice")], [(1, "room")],
   [⟨1, 2, some "accepted", some false⟩], [], [],
   [⟨5, 1, 9, 2, "accepted", 0, 7⟩]⟩

/-- The registry state after the opportunistic seed-and-broadcast of that
acceptance. -/
def c5wcm2 : ConnectionManager :=
  ⟨[(1, ⟨[(2, ⟨[], UserStatus.Online, 7⟩)],
        [WebSocketMessage.Status ⟨1, 2, UserStatus.Joined, 7⟩]⟩)], [], []⟩

/-- C5 amended witness: the concrete successful acceptance of invite 5. -/
theorem c5_amended_witness :
    (⟨5, 1, 9, 2, "accepted", 0, 7⟩ : InviteRow).status = "accepted" ∧
    (⟨5, 1, 9, 2, "accepted", 0, 7⟩ : InviteRow) ∈ c5wdb2.invites ∧
    (⟨1, 2, some "accepted", some false⟩ : MembershipRow) ∈ c5wdb2.chat_members :=
  c5_amended c5wdb ConnectionManager.new 2 5 7 ⟨5, 1, 9, 2, "accepted", 0, 7⟩
    c5wdb2 c5wcm2 (by decide)

/-- C7 (amended): a token presented only as the `token=` query parameter is
never sufficient for the protocol switch — whatever the token, clock and
database state, `GET /ws` without an Authorization header never upgrades,
because `websocket_handler` independently demands a decodable Authorization
header; presenting a decodable token in the header (in the raw form the
handler passes to the JWT validator) together with middleware-satisfying
credentials does switch. -/
theorem c7_amended :
    (∀ (decode : String → Option Nat) (db : Db) (now : Int)
      (params_token : Option String) (params_chat_id u : Nat),
      ws_route decode db now params_token params_chat_id none ≠ .switch u) ∧
    (∀ (decode : String → Option Nat) (db : Db) (now : Int)
      (params_token : Option String) (params_chat_id : Nat) (hdr : String) (uid u : Nat),
      ws_auth_middleware db now params_token params_chat_id (some hdr) = .ok uid →
      decode hdr = some u →
      ws_route decode db now params_token params_chat_id (some hdr) = .switch u) := by
  constructor
  · intro decode db now params_token params_chat_id u
    unfold ws_route
    cases h : ws_auth_middleware db now params_token params_chat_id none with
    | error e => cases e; simp
    | ok uid => simp [websocket_handler]
  · intro decode db now params_token params_chat_id hdr uid u h1 h2
    simp [ws_route, h1, websocket_handler, h2]

/-- C7 amended witness: the header-presented token "tok7" (live session,
accepted membership) does produce the protocol switch. -/
theorem c7_amended_witness :
    ws_route c7decode c7db 0 none 1 (some "tok7") = .switch 7 :=
  c7_amended.2 c7decode c7db 0 none 1 "tok7" 7 7 (by decide) (by decide)

/-- Helper: a key absent from a table is found after being appended. -/
theorem alookup_append_of_none {κ α : Type} [DecidableEq κ] (k : κ) (xs : List (κ × α))
    (v : α) (h : alookup k xs = none) : alookup k (xs ++ [(k, v)]) = some v := by
  induction xs with
  | nil => simp [alookup]
  | cons p rest ih =>
    obtain ⟨k', v'⟩ := p
    rw [List.cons_append]
    simp only [alookup] at h ⊢
    by_cases hk : k' = k
    · rw [if_pos hk] at h
      exact absurd h (by simp)
    · rw [if_neg hk] at h ⊢
      exact ih h

/-- C8 (amended): when the name is omitted the chat is created as
"Default Chat"; when a name is provided it is used verbatim with no length
validation whatsoever — any name the 255-character database column accepts
(in particular names of length 0 or longer than 50) creates the Chat row,
and no ValidationError path exists. -/
theorem c8_amended (db : Db) (user_id chat_id : Nat) (name : String)
    (hlen : name.length ≤ 255)
    (hfresh : alookup chat_id db.chats = none)
    (huser : (alookup user_id db.users).isSome = true)
    (hmem : ∀ r ∈ db.chat_members, ¬r.chat_id = chat_id ∨ ¬r.user_id = user_id) :
    create_chat db user_id (some name) none chat_id =
      .ok (⟨db.users, db.chats ++ [(chat_id, name)],
            db.chat_members ++ [⟨chat_id, user_id, none, none⟩],
            db.messages, db.sessions, db.invites⟩,
           ⟨chat_id, name⟩) ∧
    create_chat db user_id none none chat_id =
      .ok (⟨db.users, db.chats ++ [(chat_id, "Default Chat")],
            db.chat_members ++ [⟨chat_id, user_id, none, none⟩],
            db.messages, db.sessions, db.invites⟩,
           ⟨chat_id, "Default Chat"⟩) := by
  have halo : ∀ s : String, alookup chat_id (db.chats ++ [(chat_id, s)]) = some s :=
    fun s => alookup_append_of_none chat_id db.chats s hfresh
  have hdlen : ("Default Chat".length ≤ 255) := by decide
  constructor
  · simp [create_chat, insert_chat, insert_chat_member, hlen, hfresh, halo, huser]
    rw [if_pos hmem]
  · simp [create_chat, insert_chat, insert_chat_member, hfresh, halo, huser, hdlen]
    rw [if_pos hmem]

/-- C8 amended witness: user 2 creating chat 1 in the fixture store, once
with the name "r1" and once with the name omitted. -/
theorem c8_amended_witness :
    create_chat c8db 2 (some "r1") none 1 =
      .ok (⟨c8db.users, c8db.chats ++ [(1, "r1")],
            c8db.chat_members ++ [⟨1, 2, none, none⟩],
            c8db.messages, c8db.sessions, c8db.invites⟩,
           ⟨1, "r1"⟩) ∧
    create_chat c8db 2 none none 1 =
      .ok (⟨c8db.users, c8db.chats ++ [(1, "Default Chat")],
            c8db.chat_members ++ [⟨1, 2, none, none⟩],
            c8db.messages, c8db.sessions, c8db.invites⟩,
           ⟨1, "Default Chat"⟩) :=
  c8_amended c8db 2 1 "r1" (by decide) (by decide) (by decide) (by decide)

/-- Helper: no public registry operation can populate `connections`, and
none ever writes `usernames`. -/
theorem applyOp_preserves (cm : ConnectionManager) (op : RegistryOp)
    (h : cm.connections = []) :
    (applyOp cm op).connections = [] ∧ (applyOp cm op).usernames = cm.usernames := by
  cases op with
  | add_user_to_chat chat_id user_id now =>
    exact ⟨h, rfl⟩
  | remove_user_from_chat chat_id user_id =>
    simp only [applyOp, ConnectionManager.remove_user_from_chat]
    split
    · exact ⟨h, rfl⟩
    · split
      · exact ⟨h, rfl⟩
      · exact ⟨h, rfl⟩
  | broadcast_message message chat_id sender_id =>
    simp only [applyOp, ConnectionManager.broadcast_message]
    split
    · exact ⟨h, rfl⟩
    · exact ⟨h, rfl⟩
  | broadcast_to_chat chat_id sender_id message =>
    simp only [applyOp, ConnectionManager.broadcast_to_chat,
      ConnectionManager.broadcast_message]
    split
    · exact ⟨h, rfl⟩
    · exact ⟨h, rfl⟩
  | update_user_status chat_id user_id status now =>
    simp only [applyOp, ConnectionManager.update_user_status]
    split
    · exact ⟨h, rfl⟩
    · split
      · exact ⟨h, rfl⟩
      · exact ⟨h, rfl⟩
  | send_direct_message user_id message =>
    simp [applyOp, ConnectionManager.send_direct_message, h, alookup]

/-- Helper: running any operation sequence from the empty registry leaves
`connections` and `usernames` empty. -/
theorem foldl_registry_empty (ops : List RegistryOp) (cm : ConnectionManager)
    (h1 : cm.connections = []) (h2 : cm.usernames = []) :
    (ops.foldl applyOp cm).connections = [] ∧ (ops.foldl applyOp cm).usernames = [] := by
  induction ops generalizing cm with
  | nil => exact ⟨h1, h2⟩
  | cons op rest ih =>
    rw [List.foldl_cons]
    obtain ⟨hp1, hp2⟩ := applyOp_preserves cm op h1
    exact ih (applyOp cm op) hp1 (hp2.trans h2)

/-- C10: in every state reachable from `ConnectionManager::new` by the
public operations, the `connections` and `usernames` maps are empty — no
code path in the repository ever inserts into them — hence
`get_online_user` always answers none, `send_direct_message` always fails
with "User not found", and the invitation-notification push of
`send_invitation_helper` never delivers a frame to a direct channel. -/
theorem c10_registry_never_populated (ops : List RegistryOp) :
    (runOps ops).connections = [] ∧ (runOps ops).usernames = [] ∧
    (∀ username, (runOps ops).get_online_user username = none) ∧
    (∀ user_id message,
      (runOps ops).send_direct_message user_id message = .error "User not found") ∧
    (∀ username notif, invitation_push (runOps ops) username notif =
      (runOps ops, false)) := by
  have h1 : (runOps ops).connections = [] :=
    (foldl_registry_empty ops ConnectionManager.new rfl rfl).1
  have h2 : (runOps ops).usernames = [] :=
    (foldl_registry_empty ops ConnectionManager.new rfl rfl).2
  refine ⟨h1, h2, ?_, ?_, ?_⟩
  · intro username
    simp only [ConnectionManager.get_online_user]
    rw [h2]
    simp [alookup]
  · intro user_id message
    simp only [ConnectionManager.send_direct_message]
    rw [h1]
    simp [alookup]
  · intro username notif
    simp only [invitation_push, ConnectionManager.get_online_user]
    rw [h2]
    simp [alookup]

end RustleChat
